import Mathlib

/-!
Verification of the deployment orchestrator in `scripts/deploy.py`.

The orchestrator shells out to a cluster control plane (`kubectl`) through
`subprocess.run`.  We embed each such invocation's observable outcome as a
`RunOutcome`: either the call raised an exception, or it completed with an
exit status and captured standard output.  One `deploy()` run performs at
most six distinct invocations (rollout history, apply, rollout status,
get pods, get endpoints, rollout undo), so a whole collaborator behavior is
a record with one outcome per invocation.
-/

/-- Outcome of one `subprocess.run` call: the call raised an exception, or it
completed with a return code and the text captured on standard output. -/
inductive RunOutcome where
  | raised
  | completed (returncode : Int) (stdout : String)
deriving DecidableEq

/-- Python whitespace characters (ASCII), as used by `str.split()` and
`str.strip()`. -/
def isPyWs (c : Char) : Bool :=
  c == ' ' || c == '\t' || c == '\n' || c == '\r' || c == '\x0b' || c == '\x0c'

/-- Accumulator-style whitespace splitter mirroring Python `str.split()` with
no argument: runs of whitespace separate words, no empty words are produced. -/
def splitWsAux : List Char → List Char → List (List Char)
  | [], acc => if acc.isEmpty then [] else [acc.reverse]
  | c :: cs, acc =>
    if isPyWs c then
      if acc.isEmpty then splitWsAux cs []
      else acc.reverse :: splitWsAux cs []
    else splitWsAux cs (c :: acc)

/-- Python `s.split()` (no separator): split on runs of whitespace. -/
def pySplitWs (s : String) : List String :=
  (splitWsAux s.data []).map (fun w => String.mk w)

/-- Line splitter mirroring Python `s.split('\n')`: keeps empty fields, and
the result list is always non-empty. -/
def linesAux : List Char → List (List Char)
  | [] => [[]]
  | c :: cs =>
    if c == '\n' then [] :: linesAux cs
    else
      match linesAux cs with
      | [] => [[c]]
      | l :: ls => (c :: l) :: ls

/-- Python `s.split('\n')`. -/
def pySplitLines (s : String) : List String :=
  (linesAux s.data).map (fun l => String.mk l)

/-- Python `s.strip()`: remove leading and trailing whitespace. -/
def pyStrip (s : String) : String :=
  String.mk (((s.data.dropWhile isPyWs).reverse.dropWhile isPyWs).reverse)

/-- Semantics of a `subprocess.run(...)` call inside a `try:` block: a raised
exception propagates as `.error`, a completed call yields `(returncode, stdout)`. -/
def subprocessRun (res : RunOutcome) : Except String (Int × String) :=
  match res with
  | .raised => .error "subprocess.run raised"
  | .completed rc out => .ok (rc, out)

/-- Python `try: body except Exception: return fallback` — the caught value if
the body raised, its result otherwise. -/
def pyTry {α : Type} (body : Except String α) (fallback : α) : α :=
  match body with
  | .ok v => v
  | .error _ => fallback

/-- Body of `_get_current_revision` (the code inside its `try:` block together
with the trailing `return None`): on exit status 0, strip the output, split it
into lines, and when there is more than one line return the first
whitespace-separated token of the last line (`lines[-1].split()[0]`; an empty
token list would raise `IndexError`); otherwise `None`. -/
def getCurrentRevisionBody (res : RunOutcome) : Except String (Option String) :=
  match subprocessRun res with
  | .error e => .error e
  | .ok (rc, stdout) =>
    if rc == 0 then
      let lines := pySplitLines (pyStrip stdout)
      if lines.length > 1 then
        match pySplitWs (lines.getLastD "") with
        | [] => Except.error "IndexError"
        | t :: _ => Except.ok (some t)
      else Except.ok none
    else Except.ok none

/-- Embedding of `DeploymentOrchestrator._get_current_revision`: the body with its
`except Exception` handler, which converts any raised exception into `None`. -/
def getCurrentRevision (res : RunOutcome) : Option String :=
  pyTry (getCurrentRevisionBody res) none

/-- Body of `_apply_manifest`: `kubectl apply` succeeds iff the return code
is 0. -/
def applyManifestBody (res : RunOutcome) : Except String Bool :=
  match subprocessRun res with
  | .error e => .error e
  | .ok (rc, _out) => Except.ok (rc == 0)

/-- Embedding of `DeploymentOrchestrator._apply_manifest`: body plus the handler that turns
a raised exception into `False`. -/
def applyManifest (res : RunOutcome) : Bool :=
  pyTry (applyManifestBody res) false

/-- Body of `_wait_for_rollout`: `kubectl rollout status` converged iff the
return code is 0. -/
def waitForRolloutBody (res : RunOutcome) : Except String Bool :=
  match subprocessRun res with
  | .error e => .error e
  | .ok (rc, _out) => Except.ok (rc == 0)

/-- Embedding of `DeploymentOrchestrator._wait_for_rollout`: body plus the handler that
turns a raised exception into `False`. -/
def waitForRollout (res : RunOutcome) : Bool :=
  pyTry (waitForRolloutBody res) false

/-- Body of `_check_pod_health` (including the trailing `return False`): on
exit status 0, split the jsonpath output into phases and require each phase
to equal `"Running"`; nonzero status falls through to `False`. -/
def checkPodHealthBody (res : RunOutcome) : Except String Bool :=
  match subprocessRun res with
  | .error e => .error e
  | .ok (rc, stdout) =>
    if rc == 0 then
      let statuses := pySplitWs stdout
      Except.ok (statuses.all (fun status => status == "Running"))
    else Except.ok false

/-- Embedding of `DeploymentOrchestrator._check_pod_health`: body plus the handler that
turns a raised exception into `False`. -/
def checkPodHealth (res : RunOutcome) : Bool :=
  pyTry (checkPodHealthBody res) false

/-- Body of `_check_service_endpoints` (including the trailing
`return False`): on exit status 0, split the jsonpath output into addresses
and require the list to be non-empty (`if endpoints:`). -/
def checkServiceEndpointsBody (res : RunOutcome) : Except String Bool :=
  match subprocessRun res with
  | .error e => .error e
  | .ok (rc, stdout) =>
    if rc == 0 then
      let endpoints := pySplitWs stdout
      Except.ok (!endpoints.isEmpty)
    else Except.ok false

/-- Embedding of `DeploymentOrchestrator._check_service_endpoints`: body plus the handler
that turns a raised exception into `False`. -/
def checkServiceEndpoints (res : RunOutcome) : Bool :=
  pyTry (checkServiceEndpointsBody res) false

/-- Embedding of `DeploymentOrchestrator._run_health_checks`: builds the eager list
`[self._check_pod_health(), self._check_service_endpoints()]` (both calls are
evaluated before `all` runs) and returns `all(checks)`. -/
def runHealthChecks (podsRes endpointsRes : RunOutcome) : Bool :=
  let checks := [checkPodHealth podsRes, checkServiceEndpoints endpointsRes]
  checks.all (fun b => b)

/-- The control-plane commands the orchestrator can issue, used to record the
trace of `subprocess.run` invocations one `deploy()` call attempts. -/
inductive Command where
  | history
  | applyCmd
  | rolloutStatus
  | getPods
  | getEndpoints
  | undo (revision : String)
deriving DecidableEq

/-- Rollback-related log lines printed by `_perform_rollback`. -/
inductive RollbackLog where
  | noRevision
  | rollingBack (revision : String)
  | initiated
  | failed
deriving DecidableEq

/-- Embedding of `DeploymentOrchestrator._perform_rollback`, as a function of the stored
`self.rollback_revision` and the outcome of the `kubectl rollout undo` call.
Returns the commands it issues and the log lines it prints.  Python's
`if not self.rollback_revision:` is true for `None` and for the empty string;
the return code of the undo call is never inspected, so `"Rollback initiated"`
is printed whenever the call completes without raising. -/
def performRollback (rollback_revision : Option String) (undoRes : RunOutcome) :
    List Command × List RollbackLog :=
  match rollback_revision with
  | none => ([], [RollbackLog.noRevision])
  | some rev =>
    if rev == "" then ([], [RollbackLog.noRevision])
    else
      match undoRes with
      | .raised => ([Command.undo rev], [RollbackLog.rollingBack rev, RollbackLog.failed])
      | .completed _ _ =>
        ([Command.undo rev], [RollbackLog.rollingBack rev, RollbackLog.initiated])

/-- One collaborator behavior: the outcome of each `subprocess.run` invocation
`deploy()` can attempt (each is attempted at most once per run). -/
structure ClusterBehavior where
  historyRes : RunOutcome
  applyRes : RunOutcome
  rolloutRes : RunOutcome
  podsRes : RunOutcome
  endpointsRes : RunOutcome
  undoRes : RunOutcome
deriving DecidableEq

/-- Observable result of one `deploy()` call: its boolean return value, the
final value of the `self.rollback_revision` field, the trace of attempted
control-plane invocations in order, and the rollback log lines. -/
structure DeployResult where
  success : Bool
  rollback_revision : Option String
  trace : List Command
  logs : List RollbackLog
deriving DecidableEq

/-- Embedding of `DeploymentOrchestrator.deploy`.  `initRev` is the value of
`self.rollback_revision` on entry (left over from any earlier call); the first
statement overwrites it with a freshly captured revision.  Control flow of the
source: apply failure returns `False` immediately (no rollback call); rollout
or health failure calls `_perform_rollback()` and returns `False`; otherwise
returns `True`. -/
def deploy (initRev : Option String) (w : ClusterBehavior) : DeployResult :=
  -- self.rollback_revision = self._get_current_revision()
  let rollback_revision := getCurrentRevision w.historyRes
  if !applyManifest w.applyRes then
    ⟨false, rollback_revision, [Command.history, Command.applyCmd], []⟩
  else if !waitForRollout w.rolloutRes then
    let rb := performRollback rollback_revision w.undoRes
    ⟨false, rollback_revision,
      [Command.history, Command.applyCmd, Command.rolloutStatus] ++ rb.1, rb.2⟩
  else if !runHealthChecks w.podsRes w.endpointsRes then
    let rb := performRollback rollback_revision w.undoRes
    ⟨false, rollback_revision,
      [Command.history, Command.applyCmd, Command.rolloutStatus,
       Command.getPods, Command.getEndpoints] ++ rb.1, rb.2⟩
  else
    ⟨true, rollback_revision,
      [Command.history, Command.applyCmd, Command.rolloutStatus,
       Command.getPods, Command.getEndpoints], []⟩

/-! ### Helper lemmas about the embedded helpers -/

lemma deploy_eq_of_apply_fail (r : Option String) (w : ClusterBehavior)
    (h : applyManifest w.applyRes = false) :
    deploy r w =
      ⟨false, getCurrentRevision w.historyRes, [Command.history, Command.applyCmd], []⟩ := by
  simp [deploy, h]

lemma deploy_eq_of_rollout_fail (r : Option String) (w : ClusterBehavior)
    (h1 : applyManifest w.applyRes = true) (h2 : waitForRollout w.rolloutRes = false) :
    deploy r w =
      ⟨false, getCurrentRevision w.historyRes,
        [Command.history, Command.applyCmd, Command.rolloutStatus] ++
          (performRollback (getCurrentRevision w.historyRes) w.undoRes).1,
        (performRollback (getCurrentRevision w.historyRes) w.undoRes).2⟩ := by
  simp [deploy, h1, h2]

lemma deploy_eq_of_health_fail (r : Option String) (w : ClusterBehavior)
    (h1 : applyManifest w.applyRes = true) (h2 : waitForRollout w.rolloutRes = true)
    (h3 : runHealthChecks w.podsRes w.endpointsRes = false) :
    deploy r w =
      ⟨false, getCurrentRevision w.historyRes,
        [Command.history, Command.applyCmd, Command.rolloutStatus,
         Command.getPods, Command.getEndpoints] ++
          (performRollback (getCurrentRevision w.historyRes) w.undoRes).1,
        (performRollback (getCurrentRevision w.historyRes) w.undoRes).2⟩ := by
  simp [deploy, h1, h2, h3]

lemma deploy_eq_of_success (r : Option String) (w : ClusterBehavior)
    (h1 : applyManifest w.applyRes = true) (h2 : waitForRollout w.rolloutRes = true)
    (h3 : runHealthChecks w.podsRes w.endpointsRes = true) :
    deploy r w =
      ⟨true, getCurrentRevision w.historyRes,
        [Command.history, Command.applyCmd, Command.rolloutStatus,
         Command.getPods, Command.getEndpoints], []⟩ := by
  simp [deploy, h1, h2, h3]

lemma performRollback_cases (rev : Option String) (u : RunOutcome) :
    ((performRollback rev u).1 = [] ∧ (performRollback rev u).2 = [RollbackLog.noRevision])
  ∨ (∃ r0, rev = some r0 ∧ r0 ≠ "" ∧ (performRollback rev u).1 = [Command.undo r0] ∧
      (performRollback rev u).2 ≠ [RollbackLog.noRevision]) := by
  match rev with
  | none => exact Or.inl ⟨rfl, rfl⟩
  | some r0 =>
    by_cases h : r0 = ""
    · exact Or.inl (by simp [performRollback, h])
    · refine Or.inr ⟨r0, rfl, h, ?_⟩
      cases u <;> simp [performRollback, h]

lemma performRollback_snd_ne_nil (rev : Option String) (u : RunOutcome) :
    (performRollback rev u).2 ≠ [] := by
  match rev with
  | none => simp [performRollback]
  | some r0 =>
    by_cases h : r0 = "" <;> cases u <;> simp [performRollback, h]

/-! ### Claim C2: pod health with an empty result set -/

/-- Claim C2 fails on the code: when the pod query succeeds (exit status 0)
but returns zero instances, `_check_pod_health` returns `True` — `all` over the
empty list of phases is vacuously true — whereas the claim requires `False`. -/
theorem c2_counterexample : checkPodHealth (RunOutcome.completed 0 "") = true := by decide

/-- Claim C2 (amended): the pod-health sub-check returns true exactly when the
pod query completes with exit status 0 and every whitespace-separated phase in
its output equals `"Running"`; in particular a successful query returning zero
instances yields true vacuously, and a raised exception or nonzero status
yields false. -/
theorem c2_pod_health_amended :
    ∀ res, checkPodHealth res = true ↔
      ∃ rc out, res = RunOutcome.completed rc out ∧ rc = 0 ∧
        ∀ s ∈ pySplitWs out, s = "Running" := by
  intro res
  cases res with
  | raised =>
    simp [checkPodHealth, checkPodHealthBody, subprocessRun, pyTry]
  | completed rc out =>
    by_cases h : rc = 0
    · subst h
      simp [checkPodHealth, checkPodHealthBody, subprocessRun, pyTry,
        List.all_eq_true]
      exact ⟨fun hAll => ⟨0, out, ⟨rfl, rfl⟩, rfl, hAll⟩,
        fun ⟨rc, o, ⟨hrc, ho⟩, hz, hAll⟩ => ho ▸ hAll⟩
    · have hb : (rc == 0) = false := by simpa using h
      simp [checkPodHealth, checkPodHealthBody, subprocessRun, pyTry, hb, h]

/-! ### Claim C4: overall health is the conjunction of the two sub-checks -/

/-- Claim C4: `_run_health_checks` is the logical AND of the pod-health and
service-endpoint sub-checks; all pods Running with zero endpoints fails, at
least one endpoint with a non-Running pod fails, and all pods Running with at
least one endpoint passes. -/
theorem c4_health_requires_both :
    (∀ podsRes endpointsRes, runHealthChecks podsRes endpointsRes =
      (checkPodHealth podsRes && checkServiceEndpoints endpointsRes))
  ∧ runHealthChecks (RunOutcome.completed 0 "Running Running")
      (RunOutcome.completed 0 "") = false
  ∧ runHealthChecks (RunOutcome.completed 0 "Running Pending")
      (RunOutcome.completed 0 "10.0.0.7") = false
  ∧ runHealthChecks (RunOutcome.completed 0 "Running")
      (RunOutcome.completed 0 "10.0.0.7") = true := by
  refine ⟨fun p e => ?_, by decide, by decide, by decide⟩
  simp [runHealthChecks]

/-! ### Claim C5: what the rollback actuator does with a target present -/

/-- Claim C5 fails on the code: `_perform_rollback` never inspects the exit
status of the `kubectl rollout undo` call, so when the control plane rejects
the request (the call completes with nonzero status) it still logs
`"Rollback initiated"` — it does not log success exactly when the request was
accepted. -/
theorem c5_counterexample :
    performRollback (some "2") (RunOutcome.completed 1 "error")
      = ([Command.undo "2"], [RollbackLog.rollingBack "2", RollbackLog.initiated]) := by
  decide

/-- Claim C5 (amended): with a (non-empty) rollback target present, the
actuator issues exactly one undo-to-revision request and nothing else — no
waiting on the rolled-back state, no health re-checks, no retry — and logs
"Rollback initiated" whenever the invocation completes without raising an
exception (regardless of the exit status, which it never inspects), logging
failure only when the invocation raises. -/
theorem c5_rollback_amended :
    ∀ (rev : String) (undoRes : RunOutcome), rev ≠ "" →
      (performRollback (some rev) undoRes).1 = [Command.undo rev]
    ∧ ((performRollback (some rev) undoRes).2 =
        [RollbackLog.rollingBack rev, RollbackLog.initiated] ↔ undoRes ≠ RunOutcome.raised)
    ∧ ((performRollback (some rev) undoRes).2 =
        [RollbackLog.rollingBack rev, RollbackLog.failed] ↔ undoRes = RunOutcome.raised) := by
  intro rev undoRes h
  cases undoRes <;> simp [performRollback, h]

/-- Witness for `c5_rollback_amended` at revision `"7"` and an undo call that
completed (with status 0). -/
theorem c5_witness :
    (performRollback (some "7") (RunOutcome.completed 0 "")).1 = [Command.undo "7"]
  ∧ ((performRollback (some "7") (RunOutcome.completed 0 "")).2 =
      [RollbackLog.rollingBack "7", RollbackLog.initiated] ↔
        RunOutcome.completed 0 "" ≠ RunOutcome.raised)
  ∧ ((performRollback (some "7") (RunOutcome.completed 0 "")).2 =
      [RollbackLog.rollingBack "7", RollbackLog.failed] ↔
        RunOutcome.completed 0 "" = RunOutcome.raised) :=
  c5_rollback_amended "7" (RunOutcome.completed 0 "") (by decide)

/-! ### Claim C1: which gate failures trigger rollback -/

/-- Claim C1 fails on the code: when `_apply_manifest` fails (here: `kubectl
apply` exits with status 1) while a rollback target was available (revision
"2"), `deploy` returns `False` immediately — the trace holds no undo command
and no rollback log line, so the Rollback Actuator was never invoked. -/
theorem c1_counterexample :
    getCurrentRevision (RunOutcome.completed 0 "h\n2") = some "2"
  ∧ deploy none
      (ClusterBehavior.mk (RunOutcome.completed 0 "h\n2") (RunOutcome.completed 1 "err")
        (RunOutcome.completed 0 "") (RunOutcome.completed 0 "") (RunOutcome.completed 0 "")
        (RunOutcome.completed 0 ""))
      = ⟨false, some "2", [Command.history, Command.applyCmd], []⟩ := by
  decide

/-- Claim C1 (amended): when the Rollout Waiter or the Health Validator fails,
`deploy` invokes the Rollback Actuator (the rollback log is non-empty) and
returns false regardless of the rollback outcome; when the Manifest Applier
fails, `deploy` returns false immediately without invoking the Rollback
Actuator (no rollback log, no undo command). -/
theorem c1_rollback_on_gate_failure_amended :
    ∀ (r : Option String) (w : ClusterBehavior),
    (applyManifest w.applyRes = false →
      (deploy r w).success = false ∧ (deploy r w).logs = [] ∧
      ∀ rev, Command.undo rev ∉ (deploy r w).trace)
  ∧ (applyManifest w.applyRes = true →
      (waitForRollout w.rolloutRes = false ∨
        (waitForRollout w.rolloutRes = true ∧
          runHealthChecks w.podsRes w.endpointsRes = false)) →
      (deploy r w).success = false ∧ (deploy r w).logs ≠ []) := by
  intro r w
  constructor
  · intro hA
    rw [deploy_eq_of_apply_fail r w hA]
    simp
  · intro hA hOr
    rcases hOr with h2 | ⟨h2, h3⟩
    · rw [deploy_eq_of_rollout_fail r w hA h2]
      exact ⟨rfl, performRollback_snd_ne_nil _ _⟩
    · rw [deploy_eq_of_health_fail r w hA h2 h3]
      exact ⟨rfl, performRollback_snd_ne_nil _ _⟩

/-! ### Claim C3: rollback always targets the pre-apply revision -/

lemma undo_mem_performRollback {rev : Option String} {u : RunOutcome} {r0 : String}
    (h : Command.undo r0 ∈ (performRollback rev u).1) : rev = some r0 := by
  rcases performRollback_cases rev u with ⟨h1, _⟩ | ⟨r1, hr1, _, h1, _⟩
  · rw [h1] at h
    simp at h
  · rw [h1] at h
    simp at h
    rw [hr1, h]

/-- Claim C3: `self.rollback_revision` is captured by `_get_current_revision`
before the manifest is applied and is never overwritten during the run, so any
undo command issued during the run targets exactly that pre-apply revision. -/
theorem c3_rollback_target_immutable :
    ∀ (r : Option String) (w : ClusterBehavior),
    (deploy r w).rollback_revision = getCurrentRevision w.historyRes
  ∧ ∀ rev, Command.undo rev ∈ (deploy r w).trace →
      getCurrentRevision w.historyRes = some rev := by
  intro r w
  cases hA : applyManifest w.applyRes with
  | false =>
    rw [deploy_eq_of_apply_fail r w hA]
    refine ⟨rfl, fun rev h => ?_⟩
    simp at h
  | true =>
    cases hW : waitForRollout w.rolloutRes with
    | false =>
      rw [deploy_eq_of_rollout_fail r w hA hW]
      refine ⟨rfl, fun rev h => ?_⟩
      simp [List.mem_append] at h
      exact undo_mem_performRollback h
    | true =>
      cases hH : runHealthChecks w.podsRes w.endpointsRes with
      | false =>
        rw [deploy_eq_of_health_fail r w hA hW hH]
        refine ⟨rfl, fun rev h => ?_⟩
        simp [List.mem_append] at h
        exact undo_mem_performRollback h
      | true =>
        rw [deploy_eq_of_success r w hA hW hH]
        refine ⟨rfl, fun rev h => ?_⟩
        simp at h

/-! ### Claim C6: no rollback when no revision was captured -/

/-- Claim C6: when the Revision Tracker returned no revision and a later gate
fails, the run fails without any cluster mutation by the Rollback Actuator —
no undo command is issued, and the only possible rollback log line is the
"no previous revision" notice (absent entirely when the Applier failed, since
that path never invokes the actuator). -/
theorem c6_no_rollback_on_first_deploy :
    ∀ (r : Option String) (w : ClusterBehavior),
    getCurrentRevision w.historyRes = none →
    (deploy r w).success = false →
      (∀ rev, Command.undo rev ∉ (deploy r w).trace)
    ∧ ((deploy r w).logs = [] ∨ (deploy r w).logs = [RollbackLog.noRevision]) := by
  intro r w hNone hFail
  cases hA : applyManifest w.applyRes with
  | false =>
    rw [deploy_eq_of_apply_fail r w hA]
    exact ⟨fun rev h => by simp at h, Or.inl rfl⟩
  | true =>
    cases hW : waitForRollout w.rolloutRes with
    | false =>
      rw [deploy_eq_of_rollout_fail r w hA hW]
      rw [hNone]
      exact ⟨fun rev h => by simp [performRollback] at h, Or.inr rfl⟩
    | true =>
      cases hH : runHealthChecks w.podsRes w.endpointsRes with
      | false =>
        rw [deploy_eq_of_health_fail r w hA hW hH]
        rw [hNone]
        exact ⟨fun rev h => by simp [performRollback] at h, Or.inr rfl⟩
      | true =>
        rw [deploy_eq_of_success r w hA hW hH] at hFail
        simp at hFail

/-- Witness for `c6_no_rollback_on_first_deploy`: the history query fails
(status 1, so no revision), apply succeeds, the rollout gate fails. -/
theorem c6_witness :
    (∀ rev, Command.undo rev ∉
      (deploy none
        (ClusterBehavior.mk (RunOutcome.completed 1 "") (RunOutcome.completed 0 "")
          (RunOutcome.completed 1 "") (RunOutcome.completed 0 "Running")
          (RunOutcome.completed 0 "10.0.0.7") (RunOutcome.completed 0 ""))).trace)
  ∧ ((deploy none
        (ClusterBehavior.mk (RunOutcome.completed 1 "") (RunOutcome.completed 0 "")
          (RunOutcome.completed 1 "") (RunOutcome.completed 0 "Running")
          (RunOutcome.completed 0 "10.0.0.7") (RunOutcome.completed 0 ""))).logs = []
    ∨ (deploy none
        (ClusterBehavior.mk (RunOutcome.completed 1 "") (RunOutcome.completed 0 "")
          (RunOutcome.completed 1 "") (RunOutcome.completed 0 "Running")
          (RunOutcome.completed 0 "10.0.0.7") (RunOutcome.completed 0 ""))).logs
        = [RollbackLog.noRevision]) :=
  c6_no_rollback_on_first_deploy none
    (ClusterBehavior.mk (RunOutcome.completed 1 "") (RunOutcome.completed 0 "")
      (RunOutcome.completed 1 "") (RunOutcome.completed 0 "Running")
      (RunOutcome.completed 0 "10.0.0.7") (RunOutcome.completed 0 ""))
    (by decide) (by decide)

/-! ### Claim C8: single attempt per gate, both health sub-checks attempted -/

lemma performRollback_fst_shape (rev : Option String) (u : RunOutcome) :
    (performRollback rev u).1 = [] ∨ ∃ r0, (performRollback rev u).1 = [Command.undo r0] := by
  rcases performRollback_cases rev u with ⟨h1, _⟩ | ⟨r0, _, _, h1, _⟩
  · exact Or.inl h1
  · exact Or.inr ⟨r0, h1⟩

lemma deploy_undo_mem {r : Option String} {w : ClusterBehavior} {rev : String}
    (h : Command.undo rev ∈ (deploy r w).trace) :
    getCurrentRevision w.historyRes = some rev := by
  cases hA : applyManifest w.applyRes with
  | false =>
    rw [deploy_eq_of_apply_fail r w hA] at h
    simp at h
  | true =>
    cases hW : waitForRollout w.rolloutRes with
    | false =>
      rw [deploy_eq_of_rollout_fail r w hA hW] at h
      simp [List.mem_append] at h
      exact undo_mem_performRollback h
    | true =>
      cases hH : runHealthChecks w.podsRes w.endpointsRes with
      | false =>
        rw [deploy_eq_of_health_fail r w hA hW hH] at h
        simp [List.mem_append] at h
        exact undo_mem_performRollback h
      | true =>
        rw [deploy_eq_of_success r w hA hW hH] at h
        simp at h

lemma deploy_rollback_revision_eq (r : Option String) (w : ClusterBehavior) :
    (deploy r w).rollback_revision = getCurrentRevision w.historyRes := by
  cases hA : applyManifest w.applyRes with
  | false => rw [deploy_eq_of_apply_fail r w hA]
  | true =>
    cases hW : waitForRollout w.rolloutRes with
    | false => rw [deploy_eq_of_rollout_fail r w hA hW]
    | true =>
      cases hH : runHealthChecks w.podsRes w.endpointsRes with
      | false => rw [deploy_eq_of_health_fail r w hA hW hH]
      | true => rw [deploy_eq_of_success r w hA hW hH]

lemma deploy_trace_take_two (r : Option String) (w : ClusterBehavior) :
    (deploy r w).trace.take 2 = [Command.history, Command.applyCmd] := by
  cases hA : applyManifest w.applyRes with
  | false =>
    rw [deploy_eq_of_apply_fail r w hA]
    simp
  | true =>
    cases hW : waitForRollout w.rolloutRes with
    | false =>
      rw [deploy_eq_of_rollout_fail r w hA hW]
      simp
    | true =>
      cases hH : runHealthChecks w.podsRes w.endpointsRes with
      | false =>
        rw [deploy_eq_of_health_fail r w hA hW hH]
        simp
      | true =>
        rw [deploy_eq_of_success r w hA hW hH]
        simp

/-- Claim C8: the trace of one `deploy()` run never repeats an invocation (no
hidden retry loops); the history query and apply command are attempted exactly
once in every run; the pod query is attempted exactly when the endpoint query
is (both sub-checks run even if the first fails, since the list of check
results is built eagerly); and a run that passes the Applier and Waiter gates
attempts the rollout-status check and both health sub-checks exactly once. -/
theorem c8_single_attempt_per_gate :
    ∀ (r : Option String) (w : ClusterBehavior),
    (deploy r w).trace.Nodup
  ∧ Command.history ∈ (deploy r w).trace
  ∧ Command.applyCmd ∈ (deploy r w).trace
  ∧ (Command.getPods ∈ (deploy r w).trace ↔ Command.getEndpoints ∈ (deploy r w).trace)
  ∧ (applyManifest w.applyRes = true → waitForRollout w.rolloutRes = true →
      Command.rolloutStatus ∈ (deploy r w).trace
    ∧ Command.getPods ∈ (deploy r w).trace
    ∧ Command.getEndpoints ∈ (deploy r w).trace) := by
  intro r w
  cases hA : applyManifest w.applyRes with
  | false =>
    rw [deploy_eq_of_apply_fail r w hA]
    exact ⟨by simp, by simp, by simp, by simp, fun h1 _ => absurd h1 (by simp)⟩
  | true =>
    cases hW : waitForRollout w.rolloutRes with
    | false =>
      rw [deploy_eq_of_rollout_fail r w hA hW]
      rcases performRollback_fst_shape (getCurrentRevision w.historyRes) w.undoRes with
        h1 | ⟨r0, h1⟩ <;> rw [h1] <;>
        exact ⟨by simp, by simp, by simp, by simp, fun _ h2 => absurd h2 (by simp)⟩
    | true =>
      cases hH : runHealthChecks w.podsRes w.endpointsRes with
      | false =>
        rw [deploy_eq_of_health_fail r w hA hW hH]
        rcases performRollback_fst_shape (getCurrentRevision w.historyRes) w.undoRes with
          h1 | ⟨r0, h1⟩ <;> rw [h1] <;>
          exact ⟨by simp, by simp, by simp, by simp, fun _ _ => ⟨by simp, by simp, by simp⟩⟩
      | true =>
        rw [deploy_eq_of_success r w hA hW hH]
        exact ⟨by simp, by simp, by simp, by simp,
          fun _ _ => ⟨by simp, by simp, by simp⟩⟩

/-! ### Claim C9: the rollback target is freshly captured on every call -/

/-- Claim C9: `deploy` overwrites `self.rollback_revision` with a freshly
captured revision as its first action — the result is independent of the value
the field held on entry, the history query precedes the mutating apply command
in the trace, and any undo issued during the run targets the freshly captured
revision, never a value left over from an earlier call. -/
theorem c9_fresh_rollback_target_per_call :
    ∀ (r r' : Option String) (w : ClusterBehavior),
    deploy r w = deploy r' w
  ∧ (deploy r w).rollback_revision = getCurrentRevision w.historyRes
  ∧ (deploy r w).trace.take 2 = [Command.history, Command.applyCmd]
  ∧ ∀ rev, Command.undo rev ∈ (deploy r w).trace →
      some rev = getCurrentRevision w.historyRes := by
  intro r r' w
  exact ⟨rfl, deploy_rollback_revision_eq r w, deploy_trace_take_two r w,
    fun rev h => (deploy_undo_mem h).symm⟩

/-! ### Claim C10: totality in the face of collaborator exceptions -/

/-- Claim C10: `deploy` yields a boolean for every collaborator behavior, and
each exception raised by a `subprocess.run` invocation is caught inside the
gate that made the call: every gate body evaluates to `.error` on a raised
call, while the gate itself (body plus `except` handler) returns its failure
default (`None` or `False`), and `_perform_rollback` logs failure instead of
propagating. -/
theorem c10_total_and_exceptions_caught :
    ∀ (r : Option String) (w : ClusterBehavior),
    ((deploy r w).success = true ∨ (deploy r w).success = false)
  ∧ (getCurrentRevisionBody RunOutcome.raised = Except.error "subprocess.run raised"
      ∧ getCurrentRevision RunOutcome.raised = none)
  ∧ (applyManifestBody RunOutcome.raised = Except.error "subprocess.run raised"
      ∧ applyManifest RunOutcome.raised = false)
  ∧ (waitForRolloutBody RunOutcome.raised = Except.error "subprocess.run raised"
      ∧ waitForRollout RunOutcome.raised = false)
  ∧ (checkPodHealthBody RunOutcome.raised = Except.error "subprocess.run raised"
      ∧ checkPodHealth RunOutcome.raised = false)
  ∧ (checkServiceEndpointsBody RunOutcome.raised = Except.error "subprocess.run raised"
      ∧ checkServiceEndpoints RunOutcome.raised = false)
  ∧ (∀ rev, rev ≠ "" → (performRollback (some rev) RunOutcome.raised).2 =
      [RollbackLog.rollingBack rev, RollbackLog.failed]) := by
  intro r w
  refine ⟨?_, ⟨rfl, rfl⟩, ⟨rfl, rfl⟩, ⟨rfl, rfl⟩, ⟨rfl, rfl⟩, ⟨rfl, rfl⟩,
    fun rev h => ?_⟩
  · cases (deploy r w).success with
    | true => exact Or.inl rfl
    | false => exact Or.inr rfl
  · simp [performRollback, h]

/-! ### Claim C7: the revision tracker never fails and reads the last record -/

lemma linesAux_ne_nil : ∀ (cs : List Char), linesAux cs ≠ [] := by
  intro cs
  cases cs with
  | nil => simp [linesAux]
  | cons c cs =>
    by_cases hc : (c == '\n') = true
    · simp [linesAux, hc]
    · cases hL : linesAux cs with
      | nil => simp [linesAux, hc, hL]
      | cons l ls => simp [linesAux, hc, hL]

lemma linesAux_cons_step (c : Char) (cs : List Char) (hc : (c == '\n') = false) :
    linesAux (c :: cs) =
      (match linesAux cs with
       | [] => [[c]]
       | l :: ls => (c :: l) :: ls) := by
  simp [linesAux, hc]

lemma splitWsAux_eq_nil_iff (cs : List Char) : ∀ (acc : List Char),
    splitWsAux cs acc = [] ↔ (acc = [] ∧ cs.all isPyWs = true) := by
  induction cs with
  | nil =>
    intro acc
    cases acc with
    | nil => simp [splitWsAux]
    | cons x xs => simp [splitWsAux]
  | cons c cs ih =>
    intro acc
    by_cases hw : isPyWs c = true
    · cases acc with
      | nil => simp [splitWsAux, hw, ih, List.all_cons]
      | cons x xs => simp [splitWsAux, hw, List.all_cons]
    · have hw2 : isPyWs c = false := by simpa using hw
      simp [splitWsAux, hw2, ih, List.all_cons]

lemma head?_dropWhile_ws (cs : List Char) : ∀ (a : Char),
    (cs.dropWhile isPyWs).head? = some a → isPyWs a = false := by
  induction cs with
  | nil =>
    intro a h
    simp [List.dropWhile] at h
  | cons c cs ih =>
    intro a h
    by_cases hw : isPyWs c = true
    · rw [List.dropWhile_cons, if_pos hw] at h
      exact ih a h
    · rw [List.dropWhile_cons, if_neg hw] at h
      have hca : c = a := by simpa using h
      subst hca
      simpa using hw

lemma pyStrip_data_getLast_not_ws (s : String) (a : Char)
    (h : (pyStrip s).data.getLast? = some a) : isPyWs a = false := by
  have hd : (pyStrip s).data = ((s.data.dropWhile isPyWs).reverse.dropWhile isPyWs).reverse :=
    rfl
  rw [hd, List.getLast?_reverse] at h
  exact head?_dropWhile_ws _ a h

lemma linesAux_getLastD_getLast? (cs : List Char) : ∀ (a : Char),
    cs.getLast? = some a → a ≠ '\n' →
    ((linesAux cs).getLastD []).getLast? = some a := by
  induction cs with
  | nil =>
    intro a h
    simp at h
  | cons c cs ih =>
    intro a h hn
    cases cs with
    | nil =>
      have hca : c = a := by simpa using h
      subst hca
      have hc : (c == '\n') = false := by simpa using hn
      simp [linesAux, hc]
    | cons d ds =>
      have h2 : (d :: ds).getLast? = some a := by rwa [List.getLast?_cons_cons] at h
      by_cases hc : c = '\n'
      · subst hc
        have hred : linesAux ('\n' :: d :: ds) = [] :: linesAux (d :: ds) := by
          simp [linesAux]
        rw [hred]
        have hgl : (([] :: linesAux (d :: ds)).getLastD []) =
            (linesAux (d :: ds)).getLastD [] := by
          rw [List.getLastD_eq_getLast?, List.getLastD_eq_getLast?]
          have hne := linesAux_ne_nil (d :: ds)
          cases hL : linesAux (d :: ds) with
          | nil => exact absurd hL hne
          | cons l ls => rw [List.getLast?_cons_cons]
        rw [hgl]
        exact ih a h2 hn
      · have hc2 : (c == '\n') = false := by simpa using hc
        have hne := linesAux_ne_nil (d :: ds)
        cases hL : linesAux (d :: ds) with
        | nil => exact absurd hL hne
        | cons l ls =>
          have hred : linesAux (c :: d :: ds) = (c :: l) :: ls := by
            rw [linesAux_cons_step c (d :: ds) hc2, hL]
          rw [hred]
          have ihv : ((l :: ls).getLastD []).getLast? = some a := by
            have := ih a h2 hn
            rwa [hL] at this
          cases ls with
          | nil =>
            have ihv2 : l.getLast? = some a := by
              rw [List.getLastD_eq_getLast?] at ihv
              simpa using ihv
            have hgl : (([(c :: l)]).getLastD []) = c :: l := by
              rw [List.getLastD_eq_getLast?]
              simp
            rw [hgl]
            cases l with
            | nil => simp at ihv2
            | cons x xs =>
              rw [List.getLast?_cons_cons]
              exact ihv2
          | cons l2 ls2 =>
            rw [List.getLastD_eq_getLast?, List.getLast?_cons_cons]
            rw [List.getLastD_eq_getLast?, List.getLast?_cons_cons] at ihv
            exact ihv

lemma getLastD_map (f : List Char → String) (L : List (List Char)) (d : List Char) :
    (L.map f).getLastD (f d) = f (L.getLastD d) := by
  rw [List.getLastD_eq_getLast?, List.getLastD_eq_getLast?, List.getLast?_map]
  cases h : L.getLast? with
  | none => simp
  | some x => simp

lemma getCurrentRevision_completed_zero (out : String) :
    getCurrentRevision (RunOutcome.completed 0 out) =
      (if (pySplitLines (pyStrip out)).length > 1 then
        (pySplitWs ((pySplitLines (pyStrip out)).getLastD "")).head?
      else none) := by
  by_cases hl : (pySplitLines (pyStrip out)).length > 1
  · cases hw : pySplitWs ((pySplitLines (pyStrip out)).getLast?.getD "") with
    | nil =>
      simp [getCurrentRevision, getCurrentRevisionBody, subprocessRun, pyTry, hl, hw,
        List.getLastD_eq_getLast?]
    | cons t ts =>
      simp [getCurrentRevision, getCurrentRevisionBody, subprocessRun, pyTry, hl, hw,
        List.getLastD_eq_getLast?]
  · simp [getCurrentRevision, getCurrentRevisionBody, subprocessRun, pyTry, hl]

/-- Claim C7: `_get_current_revision` returns `None` when the history call
raises, exits with nonzero status (deployment absent, query failure of any
kind), or yields at most one line after stripping (an empty history under the
header line); and otherwise returns the first whitespace token of the last
line of the history — the revision of the last record — which provably
exists, so the function never fails the operation. -/
theorem c7_revision_tracker_absorbs_failures :
    (getCurrentRevision RunOutcome.raised = none)
  ∧ (∀ (rc : Int) (out : String), rc ≠ 0 →
      getCurrentRevision (RunOutcome.completed rc out) = none)
  ∧ (∀ out : String, (pySplitLines (pyStrip out)).length ≤ 1 →
      getCurrentRevision (RunOutcome.completed 0 out) = none)
  ∧ (∀ out : String, 1 < (pySplitLines (pyStrip out)).length →
      ∃ t, getCurrentRevision (RunOutcome.completed 0 out) = some t
        ∧ (pySplitWs ((pySplitLines (pyStrip out)).getLastD "")).head? = some t) := by
  refine ⟨rfl, ?_, ?_, ?_⟩
  · intro rc out h
    have hb : (rc == 0) = false := by simpa using h
    simp [getCurrentRevision, getCurrentRevisionBody, subprocessRun, pyTry, hb]
  · intro out h
    rw [getCurrentRevision_completed_zero, if_neg (Nat.not_lt.mpr h)]
  · intro out hlen
    have hcs_ne : (pyStrip out).data ≠ [] := by
      intro he
      rw [show pySplitLines (pyStrip out) = (linesAux (pyStrip out).data).map String.mk
        from rfl, he] at hlen
      simp [linesAux] at hlen
    have hsome : ((pyStrip out).data.getLast?).isSome :=
      List.getLast?_isSome.mpr hcs_ne
    obtain ⟨a, ha⟩ := Option.isSome_iff_exists.mp hsome
    have haw : isPyWs a = false := pyStrip_data_getLast_not_ws out a ha
    have hnn : a ≠ '\n' := by
      intro he
      subst he
      exact absurd haw (by decide)
    have hlast := linesAux_getLastD_getLast? (pyStrip out).data a ha hnn
    have hmem : a ∈ (linesAux (pyStrip out).data).getLastD [] := by
      obtain ⟨hne, heq⟩ :=
        List.mem_getLast?_eq_getLast (Option.mem_def.mpr hlast)
      rw [heq]
      exact List.getLast_mem hne
    have hnotall : ¬ (((linesAux (pyStrip out).data).getLastD []).all isPyWs = true) := by
      intro hall
      have := List.all_eq_true.mp hall a hmem
      rw [haw] at this
      exact absurd this (by decide)
    have hwne : splitWsAux ((linesAux (pyStrip out).data).getLastD []) [] ≠ [] := by
      intro he
      exact hnotall ((splitWsAux_eq_nil_iff _ []).mp he).2
    obtain ⟨w0, ws, hw0⟩ :
        ∃ w0 ws, splitWsAux ((linesAux (pyStrip out).data).getLastD []) [] = w0 :: ws := by
      cases hcase : splitWsAux ((linesAux (pyStrip out).data).getLastD []) [] with
      | nil => exact absurd hcase hwne
      | cons w0 ws => exact ⟨w0, ws, rfl⟩
    have hlastStr : (pySplitLines (pyStrip out)).getLastD "" =
        String.mk ((linesAux (pyStrip out).data).getLastD []) := by
      rw [show pySplitLines (pyStrip out) = (linesAux (pyStrip out).data).map String.mk
        from rfl]
      rw [show ("" : String) = String.mk [] from rfl]
      exact getLastD_map String.mk _ []
    have hsplit : pySplitWs ((pySplitLines (pyStrip out)).getLastD "") =
        String.mk w0 :: ws.map String.mk := by
      rw [hlastStr]
      rw [show pySplitWs (String.mk ((linesAux (pyStrip out).data).getLastD [])) =
        (splitWsAux ((linesAux (pyStrip out).data).getLastD []) []).map String.mk from rfl]
      rw [hw0, List.map_cons]
    refine ⟨String.mk w0, ?_, ?_⟩
    · rw [getCurrentRevision_completed_zero, if_pos hlen, hsplit]
      rfl
    · rw [hsplit]
      rfl

/-- Witness for `c7_revision_tracker_absorbs_failures`: a failed query (status
1) yields no revision; a successful two-line history yields the first token of
its last line. -/
theorem c7_witness :
    getCurrentRevision (RunOutcome.completed 1 "deployment absent") = none
  ∧ ∃ t, getCurrentRevision (RunOutcome.completed 0 "REVISION\n2 update") = some t
      ∧ (pySplitWs ((pySplitLines (pyStrip "REVISION\n2 update")).getLastD "")).head?
          = some t :=
  ⟨c7_revision_tracker_absorbs_failures.2.1 1 "deployment absent" (by decide),
   c7_revision_tracker_absorbs_failures.2.2.2 "REVISION\n2 update" (by decide)⟩
